import Mathlib

/-!
Verification of `src/dynamodel/settings/base.py`.

The source declares a single pydantic model:

  class BaseSettings(BaseModel):
      type_name: str | None = None
      access_patterns: dict = Field(default_factory=dict)

We embed the Python value universe as an inductive `PyValue`, the record as a
structure `BaseSettings`, and pydantic v2 construction/validation (the default,
non-strict configuration: no `frozen`, `extra='ignore'`, a plain `str` field
accepts exactly strings, a plain `dict` field accepts exactly dicts with keys
and values of any type) as an explicit function `validate` from keyword-style
inputs to `Except` of a list of offending field names or a record.
-/

set_option autoImplicit false

namespace Dynamodel

/-- A Python runtime value, as far as this fragment can observe one: `None`,
booleans, integers, strings, lists and dicts. Dicts are embedded as
association lists of key/value pairs; keys may be any value, as in Python. -/
inductive PyValue : Type where
  | none : PyValue
  | bool : Bool → PyValue
  | int : Int → PyValue
  | str : String → PyValue
  | list : List PyValue → PyValue
  | dict : List (PyValue × PyValue) → PyValue
deriving Repr

/-- True exactly when the value is a Python string. -/
def PyValue.isStr : PyValue → Bool
  | .str _ => true
  | _ => false

/-- True exactly when the value is Python `None`. -/
def PyValue.isNone : PyValue → Bool
  | .none => true
  | _ => false

/-- True exactly when the value is a Python dict. -/
def PyValue.isDict : PyValue → Bool
  | .dict _ => true
  | _ => false

/-- The validated record: the two declared fields of the pydantic model.
`type_name : str | None` becomes `Option String`; `access_patterns : dict`
becomes an association list of arbitrary Python keys and values. -/
structure BaseSettings : Type where
  type_name : Option String
  access_patterns : List (PyValue × PyValue)
deriving Repr

/-- A construction input: the keyword arguments / parsed object handed to the
model constructor, a finite map from string keys to Python values, embedded as
an association list (first binding of a key wins, as in a Python dict). -/
def Input : Type := List (String × PyValue)

/-- Validation of the field `type_name: str | None = None`: absent means the
default `None`; a supplied value must be a string or `None`, anything else is
an error attributed to the field `type_name`. -/
def validateField_type_name (input : Input) : Except String (Option String) :=
  match List.lookup "type_name" input with
  | Option.none => Except.ok Option.none
  | Option.some PyValue.none => Except.ok Option.none
  | Option.some (PyValue.str s) => Except.ok (Option.some s)
  | Option.some _ => Except.error "type_name"

/-- Validation of the field `access_patterns: dict = Field(default_factory=dict)`:
absent means a fresh empty dict; a supplied value must be a dict (kept exactly
as given), anything else is an error attributed to the field `access_patterns`. -/
def validateField_access_patterns (input : Input) :
    Except String (List (PyValue × PyValue)) :=
  match List.lookup "access_patterns" input with
  | Option.none => Except.ok []
  | Option.some (PyValue.dict d) => Except.ok d
  | Option.some _ => Except.error "access_patterns"

/-- Construction of a `BaseSettings` record, i.e. pydantic validation of the
whole model: each declared field is validated independently, keys other than
the declared ones are ignored (pydantic default `extra='ignore'`), and on
failure a `ValidationError` carrying every offending field name is raised. -/
def validate (input : Input) : Except (List String) BaseSettings :=
  match validateField_type_name input, validateField_access_patterns input with
  | Except.ok t, Except.ok a => Except.ok ⟨t, a⟩
  | Except.error e, Except.ok _ => Except.error [e]
  | Except.ok _, Except.error e => Except.error [e]
  | Except.error e1, Except.error e2 => Except.error [e1, e2]

/-- Models the Python attribute assignment `record.type_name = v`. The source
model sets no `model_config` (in particular not `frozen=True`), so pydantic's
default mutable behavior applies and assignment to a declared field succeeds,
replacing the stored value. -/
def set_type_name (r : BaseSettings) (v : Option String) : BaseSettings :=
  { r with type_name := v }

/-- Models the Python attribute assignment `record.access_patterns = d`; see
`set_type_name` for why assignment is permitted on this model. -/
def set_access_patterns (r : BaseSettings) (d : List (PyValue × PyValue)) :
    BaseSettings :=
  { r with access_patterns := d }

/-- Helper: a successful construction validates both fields successfully, and
the record carries exactly the two validated field values. -/
theorem validate_ok_fields (input : Input) (r : BaseSettings)
    (hr : validate input = Except.ok r) :
    validateField_type_name input = Except.ok r.type_name ∧
      validateField_access_patterns input = Except.ok r.access_patterns := by
  unfold validate at hr
  cases h1 : validateField_type_name input <;>
    cases h2 : validateField_access_patterns input <;>
      rw [h1, h2] at hr <;> simp at hr
  subst hr
  exact ⟨rfl, rfl⟩

/-- Helper: the `type_name` field validator only ever reports the field name
`type_name`. -/
theorem validateField_type_name_error (input : Input) (e : String)
    (h : validateField_type_name input = Except.error e) : e = "type_name" := by
  unfold validateField_type_name at h
  cases hv : List.lookup "type_name" input with
  | none => rw [hv] at h; simp at h
  | some v => rw [hv] at h; cases v <;> simp_all

/-- Helper: the `access_patterns` field validator only ever reports the field
name `access_patterns`. -/
theorem validateField_access_patterns_error (input : Input) (e : String)
    (h : validateField_access_patterns input = Except.error e) :
    e = "access_patterns" := by
  unfold validateField_access_patterns at h
  cases hv : List.lookup "access_patterns" input with
  | none => rw [hv] at h; simp at h
  | some v => rw [hv] at h; cases v <;> simp_all

/-- C1: an input that omits both `type_name` and `access_patterns` constructs
successfully, with `type_name = None` and `access_patterns` the empty dict. -/
theorem C1_omitted_fields_default (input : Input)
    (h1 : List.lookup "type_name" input = Option.none)
    (h2 : List.lookup "access_patterns" input = Option.none) :
    validate input = Except.ok ⟨Option.none, []⟩ := by
  unfold validate validateField_type_name validateField_access_patterns
  rw [h1, h2]

/-- Witness for C1 at the empty input `{}`. -/
theorem C1_omitted_fields_default_witness :
    validate [] = Except.ok ⟨Option.none, []⟩ :=
  C1_omitted_fields_default [] rfl rfl

/-- C2 (counterexample): the claim that no exposed operation can change the
fields of a constructed record is false. On the record constructed from the
empty input, the exposed pydantic attribute assignment `record.type_name = "User"`
(the model is not configured `frozen`) changes the observed `type_name`. -/
theorem C2_counterexample :
    validate [] = Except.ok ⟨Option.none, []⟩ ∧
      (set_type_name ⟨Option.none, []⟩ (Option.some "User")).type_name ≠
        (BaseSettings.mk Option.none []).type_name := by
  exact ⟨rfl, by simp [set_type_name]⟩

/-- C2 (amended): a constructed record is mutable after construction: pydantic's
default (non-frozen) configuration exposes attribute assignment on both declared
fields, and an assignment replaces the observed field value. -/
theorem C2_records_are_mutable (r : BaseSettings) (v : Option String)
    (d : List (PyValue × PyValue)) :
    (set_type_name r v).type_name = v ∧
      (set_access_patterns r d).access_patterns = d :=
  ⟨rfl, rfl⟩

/-- C3 (counterexample): the claim that every key of a constructed record's
`access_patterns` is a string is false: the field is annotated as a bare `dict`,
so an input dict with the integer key `1` is accepted and the non-string key is
kept in the record. -/
theorem C3_counterexample :
    validate [("access_patterns", PyValue.dict [(PyValue.int 1, PyValue.str "pk")])] =
      Except.ok ⟨Option.none, [(PyValue.int 1, PyValue.str "pk")]⟩ ∧
      (PyValue.int 1).isStr = false :=
  ⟨rfl, rfl⟩

/-- C3 (amended): keys of `access_patterns` are not constrained to strings:
every key/value entry of a supplied dict, string-keyed or not, appears unchanged
in the constructed record's `access_patterns`. -/
theorem C3_keys_of_any_type_preserved (input : Input)
    (d : List (PyValue × PyValue)) (r : BaseSettings) (k v : PyValue)
    (hv : List.lookup "access_patterns" input = Option.some (PyValue.dict d))
    (hr : validate input = Except.ok r) (hm : (k, v) ∈ d) :
    (k, v) ∈ r.access_patterns := by
  have ha := (validate_ok_fields input r hr).2
  unfold validateField_access_patterns at ha
  rw [hv] at ha
  simp at ha
  rw [← ha]
  exact hm

/-- Witness for C3 (amended): the integer-keyed entry of the supplied dict is
in the constructed record. -/
theorem C3_keys_of_any_type_preserved_witness :
    (PyValue.int 1, PyValue.str "pk") ∈
      (BaseSettings.mk Option.none [(PyValue.int 1, PyValue.str "pk")]).access_patterns :=
  C3_keys_of_any_type_preserved
    [("access_patterns", PyValue.dict [(PyValue.int 1, PyValue.str "pk")])]
    [(PyValue.int 1, PyValue.str "pk")] ⟨Option.none, [(PyValue.int 1, PyValue.str "pk")]⟩
    (PyValue.int 1) (PyValue.str "pk") rfl rfl (List.Mem.head _)

/-- C4: an input carrying `type_name` with a value that is neither a string nor
`None` fails construction with a `ValidationError` naming the field `type_name`;
no record is produced (the result is an error, not a record). -/
theorem C4_type_name_wrong_type_rejected (input : Input) (v : PyValue)
    (hv : List.lookup "type_name" input = Option.some v)
    (hs : v.isStr = false) (hn : v.isNone = false) :
    ∃ errs, validate input = Except.error errs ∧ "type_name" ∈ errs := by
  have ht : validateField_type_name input = Except.error "type_name" := by
    unfold validateField_type_name
    rw [hv]
    cases v <;> simp_all [PyValue.isStr, PyValue.isNone]
  unfold validate
  rw [ht]
  cases h2 : validateField_access_patterns input with
  | ok a => exact ⟨["type_name"], rfl, by simp⟩
  | error e => exact ⟨["type_name", e], rfl, by simp⟩

/-- Witness for C4 at the input of the spec scenario, `{"type_name": 123}`. -/
theorem C4_type_name_wrong_type_rejected_witness :
    ∃ errs, validate [("type_name", PyValue.int 123)] = Except.error errs ∧
      "type_name" ∈ errs :=
  C4_type_name_wrong_type_rejected [("type_name", PyValue.int 123)]
    (PyValue.int 123) rfl rfl rfl

/-- C5: an input carrying `access_patterns` with a non-dict value fails
construction with a `ValidationError` naming the field `access_patterns`; no
record is produced (the result is an error, not a record). -/
theorem C5_access_patterns_wrong_type_rejected (input : Input) (v : PyValue)
    (hv : List.lookup "access_patterns" input = Option.some v)
    (hd : v.isDict = false) :
    ∃ errs, validate input = Except.error errs ∧ "access_patterns" ∈ errs := by
  have ha : validateField_access_patterns input = Except.error "access_patterns" := by
    unfold validateField_access_patterns
    rw [hv]
    cases v <;> simp_all [PyValue.isDict]
  unfold validate
  rw [ha]
  cases h1 : validateField_type_name input with
  | ok t => exact ⟨["access_patterns"], rfl, by simp⟩
  | error e => exact ⟨[e, "access_patterns"], rfl, by simp⟩

/-- Witness for C5 at the input supplying a list for `access_patterns`. -/
theorem C5_access_patterns_wrong_type_rejected_witness :
    ∃ errs, validate [("access_patterns", PyValue.list [])] = Except.error errs ∧
      "access_patterns" ∈ errs :=
  C5_access_patterns_wrong_type_rejected [("access_patterns", PyValue.list [])]
    (PyValue.list []) rfl rfl

/-- C6: when `access_patterns` is supplied as a dict, a successfully constructed
record's `access_patterns` is exactly that dict, entry for entry. -/
theorem C6_access_patterns_kept_exactly (input : Input)
    (d : List (PyValue × PyValue)) (r : BaseSettings)
    (hv : List.lookup "access_patterns" input = Option.some (PyValue.dict d))
    (hr : validate input = Except.ok r) :
    r.access_patterns = d := by
  have ha := (validate_ok_fields input r hr).2
  unfold validateField_access_patterns at ha
  rw [hv] at ha
  simp at ha
  exact ha.symm

/-- Witness for C6 at the spec scenario `{"access_patterns": {"by_id": "pk"}}`. -/
theorem C6_access_patterns_kept_exactly_witness :
    (BaseSettings.mk Option.none [(PyValue.str "by_id", PyValue.str "pk")]).access_patterns =
      [(PyValue.str "by_id", PyValue.str "pk")] :=
  C6_access_patterns_kept_exactly
    [("access_patterns", PyValue.dict [(PyValue.str "by_id", PyValue.str "pk")])]
    [(PyValue.str "by_id", PyValue.str "pk")]
    ⟨Option.none, [(PyValue.str "by_id", PyValue.str "pk")]⟩ rfl rfl

/-- C7: when `type_name` is supplied as a string, a successfully constructed
record's `type_name` is exactly that string. -/
theorem C7_type_name_kept_exactly (input : Input) (s : String) (r : BaseSettings)
    (hv : List.lookup "type_name" input = Option.some (PyValue.str s))
    (hr : validate input = Except.ok r) :
    r.type_name = Option.some s := by
  have ht := (validate_ok_fields input r hr).1
  unfold validateField_type_name at ht
  rw [hv] at ht
  simp at ht
  exact ht.symm

/-- Witness for C7 at the spec scenario `{"type_name": "User"}`. -/
theorem C7_type_name_kept_exactly_witness :
    (BaseSettings.mk (Option.some "User") []).type_name = Option.some "User" :=
  C7_type_name_kept_exactly [("type_name", PyValue.str "User")] "User"
    ⟨Option.some "User", []⟩ rfl rfl

/-- C8: for every successfully constructed record, `access_patterns` is a dict
and never null: omitting the key yields the empty dict, and an input supplying
`None` for the key is never accepted. -/
theorem C8_access_patterns_never_null (input : Input) (r : BaseSettings)
    (hr : validate input = Except.ok r) :
    (List.lookup "access_patterns" input = Option.none → r.access_patterns = []) ∧
      List.lookup "access_patterns" input ≠ Option.some PyValue.none := by
  have ha := (validate_ok_fields input r hr).2
  constructor
  · intro hnone
    unfold validateField_access_patterns at ha
    rw [hnone] at ha
    simp at ha
    exact ha
  · intro hnull
    unfold validateField_access_patterns at ha
    rw [hnull] at ha
    simp at ha

/-- Witness for C8 at the empty input `{}`. -/
theorem C8_access_patterns_never_null_witness :
    (List.lookup "access_patterns" ([] : Input) = Option.none →
      (BaseSettings.mk Option.none []).access_patterns = []) ∧
      List.lookup "access_patterns" ([] : Input) ≠ Option.some PyValue.none :=
  C8_access_patterns_never_null [] ⟨Option.none, []⟩ rfl

/-- C9: construction is all-or-nothing: every input either yields a record, or
yields a `ValidationError` whose nonempty list of offending fields names only
the declared fields `type_name` and `access_patterns`; there is no third
outcome and no partial record. -/
theorem C9_all_or_nothing (input : Input) :
    (∃ r, validate input = Except.ok r) ∨
      (∃ errs, validate input = Except.error errs ∧ errs ≠ [] ∧
        ∀ e ∈ errs, e = "type_name" ∨ e = "access_patterns") := by
  unfold validate
  cases h1 : validateField_type_name input with
  | ok t =>
    cases h2 : validateField_access_patterns input with
    | ok a => exact Or.inl ⟨⟨t, a⟩, rfl⟩
    | error e =>
      refine Or.inr ⟨[e], rfl, by simp, ?_⟩
      intro x hx
      rw [List.mem_singleton] at hx
      subst hx
      exact Or.inr (validateField_access_patterns_error input x h2)
  | error e =>
    cases h2 : validateField_access_patterns input with
    | ok a =>
      refine Or.inr ⟨[e], rfl, by simp, ?_⟩
      intro x hx
      rw [List.mem_singleton] at hx
      subst hx
      exact Or.inl (validateField_type_name_error input x h1)
    | error e2 =>
      refine Or.inr ⟨[e, e2], rfl, by simp, ?_⟩
      intro x hx
      rcases List.mem_pair.1 hx with hx | hx
      · subst hx
        exact Or.inl (validateField_type_name_error input x h1)
      · subst hx
        exact Or.inr (validateField_access_patterns_error input x h2)

/-- True exactly on the keys declared by the model. -/
def relevantKey (s : String) : Bool :=
  s == "type_name" || s == "access_patterns"

/-- The input with every key other than the declared ones removed. -/
def restrict (input : Input) : Input :=
  List.filter (fun kv => relevantKey kv.1) input

/-- Helper: filtering an association list by a predicate on keys does not
change lookups of keys satisfying the predicate. -/
theorem lookup_filter_key (q : String → Bool) (k : String) (hq : q k = true)
    (l : Input) :
    List.lookup k (List.filter (fun kv => q kv.1) l) = List.lookup k l := by
  induction l with
  | nil => rfl
  | cons hd tl ih =>
    obtain ⟨a, b⟩ := hd
    by_cases hak : k = a
    · subst hak
      simp [List.filter, hq, List.lookup]
    · have hbeq : (k == a) = false := by
        simp [hak]
      cases hqa : q a with
      | true =>
        simp only [List.filter, hqa, List.lookup, hbeq]
        exact ih
      | false =>
        simp only [List.filter, hqa, List.lookup, hbeq]
        exact ih

/-- Helper: construction only reads the declared keys, so it is unchanged by
removing every other key from the input. -/
theorem validate_restrict (input : Input) :
    validate (restrict input) = validate input := by
  unfold validate validateField_type_name validateField_access_patterns restrict
  rw [lookup_filter_key relevantKey "type_name" rfl input,
    lookup_filter_key relevantKey "access_patterns" rfl input]

/-- C10: extra keys are ignored: when the declared keys are absent or carry
valid values, an input with arbitrary additional keys constructs successfully
and yields the same record as the input with the extra keys removed. -/
theorem C10_extra_keys_ignored (input : Input)
    (h1 : ∀ v, List.lookup "type_name" input = Option.some v →
      (v.isStr || v.isNone) = true)
    (h2 : ∀ v, List.lookup "access_patterns" input = Option.some v →
      v.isDict = true) :
    ∃ r, validate input = Except.ok r ∧ validate (restrict input) = Except.ok r := by
  have ht : ∃ t, validateField_type_name input = Except.ok t := by
    unfold validateField_type_name
    cases hv : List.lookup "type_name" input with
    | none => exact ⟨Option.none, rfl⟩
    | some v =>
      have hval := h1 v hv
      cases v <;> simp_all [PyValue.isStr, PyValue.isNone]
  have ha : ∃ a, validateField_access_patterns input = Except.ok a := by
    unfold validateField_access_patterns
    cases hv : List.lookup "access_patterns" input with
    | none => exact ⟨[], rfl⟩
    | some v =>
      have hval := h2 v hv
      cases v <;> simp_all [PyValue.isDict]
  obtain ⟨t, ht⟩ := ht
  obtain ⟨a, ha⟩ := ha
  refine ⟨⟨t, a⟩, ?_, ?_⟩
  · unfold validate
    rw [ht, ha]
  · rw [validate_restrict]
    unfold validate
    rw [ht, ha]

/-- Witness for C10: an input with the extra key `extra` constructs and equals
the construction of the restricted input. -/
theorem C10_extra_keys_ignored_witness :
    ∃ r, validate [("type_name", PyValue.str "User"), ("extra", PyValue.int 1)] =
        Except.ok r ∧
      validate (restrict [("type_name", PyValue.str "User"), ("extra", PyValue.int 1)]) =
        Except.ok r :=
  C10_extra_keys_ignored [("type_name", PyValue.str "User"), ("extra", PyValue.int 1)]
    (fun v hv => by
      simp [List.lookup] at hv
      subst hv
      rfl)
    (fun v hv => by
      simp [List.lookup] at hv)

end Dynamodel
